import Mathlib

/-!
Shallow embedding of the core of the `alpaca_monitor` repository
(`src/alpaca_weather.py`, `src/http_client.py`, `src/ekos_control.py`,
`src/weather_monitor.py`) together with theorems settling the frozen
claims about its specification.

Remote I/O is modelled by oracles: a function from the attempt index to
the outcome the network would deliver on that attempt.  Each embedded
operation returns, besides its Python return value, an explicit record of
the observable effects (attempts made, sleeps performed, commands issued)
so that the claims about traces can be stated directly.
-/

/-! ## Retry loop of `AlpacaWeatherMonitor._retry_request` -/

/-- Error surfaced by `_retry_request`: either the last exception raised by
an attempt (`raise last_exception`), or the defensive generic exception
raised when the loop ran zero times. -/
inductive RetryError (ε : Type) where
  | last (e : ε)
  | unknown
deriving Repr, DecidableEq

/-- Observable result of one `_retry_request` run: how many attempts were
made, the duration (ms) of every `time.sleep` performed between attempts,
and the final outcome. -/
structure RetryOutcome (ε ρ : Type) where
  attempts : Nat
  sleepsMs : List Nat
  outcome : Except (RetryError ε) ρ
deriving Repr

instance {α β : Type} [DecidableEq α] [DecidableEq β] : DecidableEq (Except α β) := by
  intro a b
  cases a with
  | ok x =>
    cases b with
    | ok y =>
      refine decidable_of_iff (x = y) ?_
      constructor
      · rintro rfl; rfl
      · intro h; injection h
    | error y => exact isFalse (by intro h; cases h)
  | error x =>
    cases b with
    | ok y => exact isFalse (by intro h; cases h)
    | error y =>
      refine decidable_of_iff (x = y) ?_
      constructor
      · rintro rfl; rfl
      · intro h; injection h

instance [DecidableEq ε] [DecidableEq ρ] : DecidableEq (RetryOutcome ε ρ) := by
  intro a b
  rcases a with ⟨a1, a2, a3⟩
  rcases b with ⟨b1, b2, b3⟩
  refine decidable_of_iff (a1 = b1 ∧ a2 = b2 ∧ a3 = b3) ?_
  constructor
  · rintro ⟨rfl, rfl, rfl⟩; rfl
  · intro h; injection h with h1 h2 h3; exact ⟨h1, h2, h3⟩

/-- The body of `_retry_request`'s `for attempt in range(1, max_retries + 1)`
loop.  `fuel` is the number of loop iterations left, `attempt` the 1-based
attempt counter, `lastErr` the `last_exception` variable.  A successful
request returns immediately; a failed one sleeps `retryDelay` ms when
`attempt < max_retries` and retries. -/
def retry_loop (request : Nat → Except ε ρ) (maxRetries retryDelay : Nat) :
    Nat → Nat → Option ε → RetryOutcome ε ρ
  | 0, _, lastErr =>
    { attempts := 0, sleepsMs := [],
      outcome := Except.error
        (match lastErr with
          | some e => RetryError.last e
          | none => RetryError.unknown) }
  | fuel + 1, attempt, _ =>
    match request attempt with
    | Except.ok r => { attempts := 1, sleepsMs := [], outcome := Except.ok r }
    | Except.error e =>
      if attempt < maxRetries then
        let rest := retry_loop request maxRetries retryDelay fuel (attempt + 1) (some e)
        { attempts := rest.attempts + 1, sleepsMs := retryDelay :: rest.sleepsMs,
          outcome := rest.outcome }
      else
        { attempts := 1, sleepsMs := [], outcome := Except.error (RetryError.last e) }

/-- `AlpacaWeatherMonitor._retry_request`: run the attempt loop starting at
attempt 1 with `max_retries` iterations available.  Any well-formed
response delivered by `request` is returned at once; only raised
exceptions (transport failures) are retried. -/
def retry_request (maxRetries retryDelay : Nat) (request : Nat → Except ε ρ) :
    RetryOutcome ε ρ :=
  retry_loop request maxRetries retryDelay maxRetries 1 none

/-! ## `AlpacaWeatherMonitor` -/

/-- A well-formed Alpaca JSON response `{ErrorNumber, ErrorMessage, Value}`.
`value` is `none` when the `Value` field is absent from the JSON object. -/
structure AlpacaResponse where
  errorNumber : Int
  errorMessage : String
  value : Option Bool
deriving Repr, DecidableEq

/-- A transport-level failure (a raised `RequestException`), carrying its
message. -/
abbrev TransportError := String

/-- Mutable state of `AlpacaWeatherMonitor`: just the `connected` flag. -/
structure WeatherState where
  connected : Bool
deriving Repr, DecidableEq

/-- `AlpacaWeatherMonitor.connect`: issue an `issafe` probe through
`_retry_request`; on a response with `ErrorNumber == 0` set
`connected = True` and succeed, otherwise leave the state unchanged and
fail.  A raised (retry-exhausted) exception is caught and reported as
failure. -/
def weather_connect (maxRetries retryDelay : Nat)
    (request : Nat → Except TransportError AlpacaResponse)
    (st : WeatherState) : WeatherState × Bool :=
  match (retry_request maxRetries retryDelay request).outcome with
  | Except.ok resp =>
    if resp.errorNumber = 0 then ({ connected := true }, true) else (st, false)
  | Except.error _ => (st, false)

/-- `AlpacaWeatherMonitor.is_safe`: reconnect first when not connected
(returning `False` if that fails), then query `issafe` through
`_retry_request`.  On `ErrorNumber == 0` the result is
`bool(response.get("Value", False))`; a non-zero `ErrorNumber` or a raised
exception yields `False`.  The function never raises. -/
def weather_is_safe (maxRetries retryDelay : Nat)
    (connectReq queryReq : Nat → Except TransportError AlpacaResponse)
    (st : WeatherState) : WeatherState × Bool :=
  let conn :=
    if !st.connected then weather_connect maxRetries retryDelay connectReq st
    else (st, true)
  if !conn.2 then (conn.1, false)
  else
    match (retry_request maxRetries retryDelay queryReq).outcome with
    | Except.ok resp =>
      if resp.errorNumber = 0 then (conn.1, resp.value.getD false)
      else (conn.1, false)
    | Except.error _ => (conn.1, false)

/-! ## Concrete oracles used as test fixtures -/

/-- A response signalling success with a safe reading. -/
def okSafeResponse : AlpacaResponse := { errorNumber := 0, errorMessage := "", value := some true }

/-- An endpoint that always answers `ErrorNumber = 0, Value = true`. -/
def alwaysOkSafe : Nat → Except TransportError AlpacaResponse :=
  fun _ => Except.ok okSafeResponse

/-- An endpoint that always fails at transport level. -/
def alwaysTimeout : Nat → Except TransportError AlpacaResponse :=
  fun _ => Except.error "timeout"

/-- A well-formed response carrying a non-zero `ErrorNumber`. -/
def protoErrorResponse : AlpacaResponse := { errorNumber := 1, errorMessage := "err", value := some true }

/-- An endpoint that always answers the protocol-level error response. -/
def alwaysProtoError : Nat → Except TransportError AlpacaResponse :=
  fun _ => Except.ok protoErrorResponse

/-! ## `WeatherMonitoringSystem.check_weather_and_update_ekos`

The evaluation tick.  The `EkosController` methods it invokes are modelled
as an environment of results; the tick's observable behaviour is the list
of calls it performs, in order. -/

/-- A call the tick performs against the weather device or the control
plane.  `startEkos` runs the before-start HTTP action sequence and the
control-plane EKOS start, `startScheduler` and `abortScheduler` are the
scheduler start/abort commands, `stopEkos` stops EKOS and runs the
after-stop HTTP action sequence. -/
inductive TickCall where
  | weatherConnect
  | isSafeQuery
  | isEkosRunning
  | startEkos
  | getSchedulerStatus
  | startScheduler
  | abortScheduler
  | stopEkos
deriving Repr, DecidableEq

/-- Calls that run an action sequence or issue the control-plane
start/abort command (as opposed to mere status queries). -/
def TickCall.isActionCommand : TickCall → Bool
  | TickCall.startEkos => true
  | TickCall.startScheduler => true
  | TickCall.abortScheduler => true
  | TickCall.stopEkos => true
  | _ => false

/-- Results the `EkosController` methods would return when the tick calls
them. -/
structure EkosEnv where
  ekosRunning : Bool
  startEkosOk : Bool
  schedStatus : Option Int
  startSchedulerOk : Bool
  abortSchedulerOk : Bool
  stopEkosOk : Bool
deriving Repr, DecidableEq

/-- The weather-side environment of a tick: the retry configuration and
the transport oracles used by `connect` and by the `is_safe` query. -/
structure WeatherEnv where
  maxRetries : Nat
  retryDelay : Nat
  connectReq : Nat → Except TransportError AlpacaResponse
  queryReq : Nat → Except TransportError AlpacaResponse

/-- Fields of `WeatherMonitoringSystem` the tick touches: the `running`
flag and `last_weather_safe` (set to `None` in `__init__` and never
assigned anywhere else in the source). -/
structure MonitorState where
  running : Bool
  last_weather_safe : Option Bool
deriving Repr, DecidableEq

/-- Calls of the favourable branch, after `is_ekos_running`: get the
scheduler status and start the scheduler unless the status already reads
1 (Running); `None` compares unequal to 1 in the source. -/
def tickSafeStatusCalls (e : EkosEnv) : List TickCall :=
  if e.schedStatus ≠ some 1 then [TickCall.getSchedulerStatus, TickCall.startScheduler]
  else [TickCall.getSchedulerStatus]

/-- The favourable branch of the tick (lines 117-142 of
`weather_monitor.py`): check that EKOS runs, start it if not (returning
early on failure), then gate `start_scheduler` on the status. -/
def tickSafeBranch (e : EkosEnv) : List TickCall :=
  if e.ekosRunning then TickCall.isEkosRunning :: tickSafeStatusCalls e
  else if e.startEkosOk then
    TickCall.isEkosRunning :: TickCall.startEkos :: tickSafeStatusCalls e
  else [TickCall.isEkosRunning, TickCall.startEkos]

/-- The unfavourable branch of the tick (lines 145-175): return early when
EKOS is not running; otherwise abort the scheduler only when the status
reads 1, then optionally stop EKOS when `behavior.stop_ekos_on_unsafe`
is configured. -/
def tickUnsafeBranch (stopEkosOnUnsafe : Bool) (e : EkosEnv) : List TickCall :=
  if !e.ekosRunning then [TickCall.isEkosRunning]
  else
    (if e.schedStatus = some 1 then
      [TickCall.isEkosRunning, TickCall.getSchedulerStatus, TickCall.abortScheduler]
    else [TickCall.isEkosRunning, TickCall.getSchedulerStatus])
    ++ (if stopEkosOnUnsafe then [TickCall.stopEkos] else [])

/-- The part of the tick after the connection guard: obtain the reading
via `is_safe` and dispatch on it.  `pre` is the trace accumulated by the
guard.  The monitor state is returned untouched: the tick assigns neither
`running` nor `last_weather_safe`. -/
def tickAfterConnect (w : WeatherEnv) (e : EkosEnv) (stopEkosOnUnsafe : Bool)
    (st : MonitorState) (wst : WeatherState) (pre : List TickCall) :
    MonitorState × WeatherState × List TickCall :=
  let res := weather_is_safe w.maxRetries w.retryDelay w.connectReq w.queryReq wst
  (st, res.1,
    pre ++ TickCall.isSafeQuery ::
      (if res.2 then tickSafeBranch e else tickUnsafeBranch stopEkosOnUnsafe e))

/-- `WeatherMonitoringSystem.check_weather_and_update_ekos`: do nothing
when not running; when the weather device is not connected, reconnect and
skip the tick if that fails; then evaluate the reading. -/
def check_weather_and_update_ekos (w : WeatherEnv) (e : EkosEnv)
    (stopEkosOnUnsafe : Bool) (st : MonitorState) (wst : WeatherState) :
    MonitorState × WeatherState × List TickCall :=
  if !st.running then (st, wst, [])
  else if !wst.connected then
    match weather_connect w.maxRetries w.retryDelay w.connectReq wst with
    | (wst1, false) => (st, wst1, [TickCall.weatherConnect])
    | (wst1, true) => tickAfterConnect w e stopEkosOnUnsafe st wst1 [TickCall.weatherConnect]
  else tickAfterConnect w e stopEkosOnUnsafe st wst []

/-! ## `EkosController` scheduler commands -/

/-- A wire-level scheduler command sent over the control plane (the
`call_method(self.scheduler, "start")` and `call_method(self.scheduler,
"stop")` invocations). -/
inductive WireCall where
  | schedStart
  | schedStop
deriving Repr, DecidableEq

/-- Environment of one `start_scheduler`/`abort_scheduler` run:
`isConn` is what `is_connected()` reports, `connectOk` what a `connect()`
attempt would return, `schedStatus` the first `get_scheduler_status()`
result, and `statusAfter i` the status observed on the i-th poll of the
post-command verification loop. -/
structure SchedulerEnv where
  isConn : Bool
  connectOk : Bool
  schedStatus : Option Int
  statusAfter : Nat → Option Int

/-- The `for _ in range(3)` verification loop after a scheduler command:
poll the status up to `fuel` times, succeeding as soon as it equals
`target`. -/
def sched_verify (target : Int) (statusAfter : Nat → Option Int) :
    Nat → Nat → Bool
  | _, 0 => false
  | i, fuel + 1 =>
    if statusAfter i = some target then true
    else sched_verify target statusAfter (i + 1) fuel

/-- `EkosController.start_scheduler`: fail when disconnected and
reconnection fails; return success with no wire command when the status
already reads 1 (Running); otherwise send the start command and verify. -/
def start_scheduler (env : SchedulerEnv) : Bool × List WireCall :=
  if !env.isConn && !env.connectOk then (false, [])
  else if env.schedStatus = some 1 then (true, [])
  else (sched_verify 1 env.statusAfter 0 3, [WireCall.schedStart])

/-- `EkosController.abort_scheduler`: fail when disconnected and
reconnection fails; return success with no wire command when the status
is `None` or differs from 1; otherwise send the stop command and verify
that the status reaches 0. -/
def abort_scheduler (env : SchedulerEnv) : Bool × List WireCall :=
  if !env.isConn && !env.connectOk then (false, [])
  else if env.schedStatus = some 1 then
    (sched_verify 0 env.statusAfter 0 3, [WireCall.schedStop])
  else (true, [])

/-- `EkosController.stop_scheduler`: the source delegates to
`abort_scheduler` because the D-Bus interface offers a single `stop`
method. -/
def stop_scheduler (env : SchedulerEnv) : Bool × List WireCall :=
  abort_scheduler env

/-! ## Capability resolution of `EkosController.call_method` -/

/-- The invocation strategies `call_method` knows, in its order of
preference: a direct attribute call, the `call_`-prefixed wrapper, and
indirection through the D-Bus properties interface for getter names. -/
inductive Strategy where
  | directCall
  | callWrapper
  | propertyGet
deriving Repr, DecidableEq, Fintype

/-- Which strategies the remote proxy object supports for one logical
operation: `hasDirect` and `hasWrapper` are the two `hasattr` probes, and
`isGetter` states that the method name starts with `get`/`get_` on an
object routed to a properties interface. -/
structure MethodSupport where
  hasDirect : Bool
  hasWrapper : Bool
  isGetter : Bool
deriving Repr, DecidableEq, Fintype

/-- The strategy `call_method` commits to: the first of
direct / `call_`-wrapper / property-get whose availability probe
succeeds, `none` when no strategy applies. -/
def call_method_resolve (s : MethodSupport) : Option Strategy :=
  if s.hasDirect then some Strategy.directCall
  else if s.hasWrapper then some Strategy.callWrapper
  else if s.isGetter then some Strategy.propertyGet
  else none

/-- Whether the support set offers a given strategy. -/
def supportsStrategy (s : MethodSupport) : Strategy → Bool
  | Strategy.directCall => s.hasDirect
  | Strategy.callWrapper => s.hasWrapper
  | Strategy.propertyGet => s.isGetter

/-- Position of a strategy in `call_method`'s fixed preference order. -/
def Strategy.priority : Strategy → Nat
  | Strategy.directCall => 0
  | Strategy.callWrapper => 1
  | Strategy.propertyGet => 2

/-! ## `HttpActionClient` -/

/-- One configured HTTP action step `{url, method, headers, delay_after}`
(headers do not influence control flow and are omitted). -/
structure HttpAction where
  url : Option String
  method : String
  delay_after : Option Nat
deriving Repr, DecidableEq

/-- The `http_actions` configuration block. -/
structure HttpConfig where
  enabled : Bool
  max_retries : Nat
  delay_after_call : Nat
  before_start : List HttpAction
  after_stop : List HttpAction
deriving Repr, DecidableEq

/-- The retry loop of `execute_http_request`
(`for attempt in range(self.max_retries + 1)`): `respond j` tells whether
the j-th HTTP call of this step succeeds.  Returns the number of HTTP
calls made and the overall success. -/
def http_attempt_loop (respond : Nat → Bool) (maxRetries : Nat) :
    Nat → Nat → Nat × Bool
  | _, 0 => (0, false)
  | attempt, fuel + 1 =>
    if respond attempt then (1, true)
    else if attempt < maxRetries then
      let rest := http_attempt_loop respond maxRetries (attempt + 1) fuel
      (rest.1 + 1, rest.2)
    else (1, false)

/-- `HttpActionClient.execute_http_request`: vacuous success when the
client is disabled; immediate failure (no HTTP call) on a missing URL or
a non-GET method; otherwise up to `max_retries + 1` attempts. -/
def execute_http_request (cfg : HttpConfig) (action : HttpAction)
    (respond : Nat → Bool) : Nat × Bool :=
  if !cfg.enabled then (0, true)
  else
    match action.url with
    | none => (0, false)
    | some _ =>
      if action.method ≠ "GET" then (0, false)
      else http_attempt_loop respond cfg.max_retries 0 (cfg.max_retries + 1)

/-- Observable result of `execute_action_sequence`: the overall success,
the number of HTTP calls each executed step made (in execution order),
and the inter-step sleeps performed (in seconds). -/
structure SeqRun where
  success : Bool
  callsPerStep : List Nat
  delays : List Nat
deriving Repr, DecidableEq

/-- The `for i, action in enumerate(actions)` loop of
`execute_action_sequence`: run each step, abort on the first failure, and
sleep `delay_after` (else the configured default) after a successful step
that is not the last of the whole sequence. -/
def seq_loop (cfg : HttpConfig) (respond : Nat → Nat → Bool) (total : Nat) :
    Nat → List HttpAction → SeqRun
  | _, [] => { success := true, callsPerStep := [], delays := [] }
  | i, a :: rest =>
    let r := execute_http_request cfg a (respond i)
    if !r.2 then { success := false, callsPerStep := [r.1], delays := [] }
    else
      let tail := seq_loop cfg respond total (i + 1) rest
      { success := tail.success, callsPerStep := r.1 :: tail.callsPerStep,
        delays := (if i < total - 1 then [a.delay_after.getD cfg.delay_after_call] else [])
          ++ tail.delays }

/-- `HttpActionClient.execute_action_sequence`: vacuous success when the
client is disabled or the list is empty, else the sequential loop. -/
def execute_action_sequence (cfg : HttpConfig) (actions : List HttpAction)
    (respond : Nat → Nat → Bool) : SeqRun :=
  if !cfg.enabled || actions.isEmpty then
    { success := true, callsPerStep := [], delays := [] }
  else seq_loop cfg respond actions.length 0 actions

/-- `HttpActionClient.before_ekos_start`: vacuous success when disabled or
no before-start actions are configured, else run the sequence. -/
def before_ekos_start (cfg : HttpConfig) (respond : Nat → Nat → Bool) : SeqRun :=
  if !cfg.enabled || cfg.before_start.isEmpty then
    { success := true, callsPerStep := [], delays := [] }
  else execute_action_sequence cfg cfg.before_start respond

/-- `HttpActionClient.after_ekos_stop`: vacuous success when disabled or
no after-stop actions are configured, else run the sequence. -/
def after_ekos_stop (cfg : HttpConfig) (respond : Nat → Nat → Bool) : SeqRun :=
  if !cfg.enabled || cfg.after_stop.isEmpty then
    { success := true, callsPerStep := [], delays := [] }
  else execute_action_sequence cfg cfg.after_stop respond

/-- An HTTP responder for which only step 0 succeeds (on every attempt),
used as a concrete fixture. -/
def onlyFirstStepOk : Nat → Nat → Bool := fun i _ => i == 0

/-- A sample GET action step. -/
def stepA : HttpAction := { url := some "http://relay/a", method := "GET", delay_after := none }

/-- A second sample GET action step. -/
def stepB : HttpAction := { url := some "http://relay/b", method := "GET", delay_after := none }

/-- An enabled two-step configuration with `max_retries = 2` and a default
inter-step delay of 5 seconds. -/
def cfgTwoSteps : HttpConfig :=
  { enabled := true, max_retries := 2, delay_after_call := 5,
    before_start := [stepA, stepB], after_stop := [stepA] }

/-- The same configuration with the client disabled. -/
def cfgDisabled : HttpConfig :=
  { enabled := false, max_retries := 2, delay_after_call := 5,
    before_start := [stepA, stepB], after_stop := [stepA] }

/-- An HTTP responder that always succeeds. -/
def respondAllOk : Nat → Nat → Bool := fun _ _ => true

/-! # Theorems -/

/-! ## Retry loop lemmas -/

/-- When every attempt fails at transport level, the loop body makes
exactly `fuel` further attempts, sleeping `retryDelay` ms between any two
of them, and surfaces the last raised error. -/
theorem retry_loop_all_fail {ε ρ : Type} (request : Nat → Except ε ρ) (e : Nat → ε)
    (maxRetries retryDelay : Nat)
    (herr : ∀ a, request a = Except.error (e a)) :
    ∀ fuel attempt lastErr, 1 ≤ fuel → attempt + fuel = maxRetries + 1 →
      retry_loop request maxRetries retryDelay fuel attempt lastErr
        = { attempts := fuel, sleepsMs := List.replicate (fuel - 1) retryDelay,
            outcome := Except.error (RetryError.last (e maxRetries)) } := by
  intro fuel
  induction fuel with
  | zero => intro attempt lastErr h1 _; omega
  | succ f ih =>
    intro attempt lastErr _ hsum
    rcases Nat.eq_zero_or_pos f with hf | hf
    · subst hf
      have ha : attempt = maxRetries := by omega
      subst ha
      simp [retry_loop, herr]
    · have hlt : attempt < maxRetries := by omega
      have hrec := ih (attempt + 1) (some (e attempt)) (by omega) (by omega)
      have hrep : retryDelay :: List.replicate (f - 1) retryDelay
          = List.replicate f retryDelay := by
        conv_rhs => rw [show f = (f - 1) + 1 from by omega]
        rw [List.replicate_succ]
      simp [retry_loop, herr, hlt, hrec, hrep]

/-- An always-failing transport makes `_retry_request` attempt exactly
`max_retries` times with `max_retries - 1` sleeps of `retry_delay` ms in
between, then surface the last error. -/
theorem retry_request_all_fail {ε ρ : Type} (request : Nat → Except ε ρ) (e : Nat → ε)
    (maxRetries retryDelay : Nat) (h1 : 1 ≤ maxRetries)
    (herr : ∀ a, request a = Except.error (e a)) :
    retry_request maxRetries retryDelay request
      = { attempts := maxRetries,
          sleepsMs := List.replicate (maxRetries - 1) retryDelay,
          outcome := Except.error (RetryError.last (e maxRetries)) } :=
  retry_loop_all_fail request e maxRetries retryDelay herr maxRetries 1 none h1 (by omega)

/-- Any well-formed response delivered on the first attempt is returned at
once: one attempt, no sleeps, regardless of `ErrorNumber`. -/
theorem retry_request_first_ok {ε ρ : Type} (maxRetries retryDelay : Nat)
    (request : Nat → Except ε ρ) (resp : ρ)
    (h1 : 1 ≤ maxRetries) (hreq : request 1 = Except.ok resp) :
    retry_request maxRetries retryDelay request
      = { attempts := 1, sleepsMs := [], outcome := Except.ok resp } := by
  obtain ⟨f, rfl⟩ : ∃ f, maxRetries = f + 1 := ⟨maxRetries - 1, by omega⟩
  simp [retry_request, retry_loop, hreq]

/-- When the device is connected and the query delivers a response with
`ErrorNumber == 0`, `is_safe` returns `bool(response.get("Value", False))`
and leaves the state alone. -/
theorem weather_is_safe_ok (maxRetries retryDelay : Nat)
    (connectReq queryReq : Nat → Except TransportError AlpacaResponse)
    (wst : WeatherState) (resp : AlpacaResponse)
    (hconn : wst.connected = true)
    (hq : (retry_request maxRetries retryDelay queryReq).outcome = Except.ok resp)
    (hnum : resp.errorNumber = 0) :
    weather_is_safe maxRetries retryDelay connectReq queryReq wst
      = (wst, resp.value.getD false) := by
  simp [weather_is_safe, hconn, hq, hnum]

/-- When the device is connected and the query raises (retries exhausted),
`is_safe` catches the exception and returns `False`. -/
theorem weather_is_safe_error (maxRetries retryDelay : Nat)
    (connectReq queryReq : Nat → Except TransportError AlpacaResponse)
    (wst : WeatherState) (err : RetryError TransportError)
    (hconn : wst.connected = true)
    (hq : (retry_request maxRetries retryDelay queryReq).outcome = Except.error err) :
    weather_is_safe maxRetries retryDelay connectReq queryReq wst = (wst, false) := by
  simp [weather_is_safe, hconn, hq]

/-- A failed `connect` leaves the monitor state unchanged. -/
theorem weather_connect_fail_state (maxRetries retryDelay : Nat)
    (request : Nat → Except TransportError AlpacaResponse) (st : WeatherState)
    (h : (weather_connect maxRetries retryDelay request st).2 = false) :
    (weather_connect maxRetries retryDelay request st).1 = st := by
  unfold weather_connect at h ⊢
  cases hq : (retry_request maxRetries retryDelay request).outcome with
  | ok resp =>
    rw [hq] at h
    by_cases hn : resp.errorNumber = 0
    · simp [hn] at h
    · simp [hn]
  | error err => rfl

/-! ## C3: a protocol-level error is not retried -/

/-- Claim C3 counterexample: against an endpoint that always answers a
well-formed response with `ErrorNumber = 1`, a safety query configured
with `max_retries = 3` is attempted exactly once with no inter-attempt
delay — not 3 times as the same-retry-policy claim requires — while a
transport-level failure is attempted 3 times; `is_safe` still reports the
protocol error as `False`. -/
theorem protocol_error_not_retried_counterexample :
    (retry_request 3 100 alwaysProtoError).attempts = 1
    ∧ (retry_request 3 100 alwaysProtoError).sleepsMs = []
    ∧ (retry_request 3 100 alwaysTimeout).attempts = 3
    ∧ (weather_is_safe 3 100 alwaysOkSafe alwaysProtoError { connected := true }).2 = false := by
  refine ⟨by decide, by decide, by decide, by decide⟩

/-- Amended C3: a non-zero `ErrorNumber` in a well-formed response is
treated as a query failure (`is_safe` returns `False`, logged distinctly),
but it does not funnel into the retry policy: `_retry_request` returns any
delivered response on the attempt it arrives, so the query is attempted
exactly once with no delay; only raised transport errors are retried. -/
theorem protocol_error_single_attempt (maxRetries retryDelay : Nat)
    (connectReq request : Nat → Except TransportError AlpacaResponse)
    (st : WeatherState) (resp : AlpacaResponse)
    (h1 : 1 ≤ maxRetries) (hreq : request 1 = Except.ok resp)
    (herrnum : resp.errorNumber ≠ 0) (hconn : st.connected = true) :
    retry_request maxRetries retryDelay request
      = { attempts := 1, sleepsMs := [], outcome := Except.ok resp }
    ∧ (weather_is_safe maxRetries retryDelay connectReq request st).2 = false := by
  have h := retry_request_first_ok maxRetries retryDelay request resp h1 hreq
  refine ⟨h, ?_⟩
  have hq : (retry_request maxRetries retryDelay request).outcome = Except.ok resp := by
    rw [h]
  simp [weather_is_safe, hconn, hq, herrnum]

/-- Witness for `protocol_error_single_attempt` at `max_retries = 3`
against the constant protocol-error endpoint. -/
theorem protocol_error_single_attempt_witness :
    retry_request 3 100 alwaysProtoError
      = { attempts := 1, sleepsMs := [], outcome := Except.ok protoErrorResponse }
    ∧ (weather_is_safe 3 100 alwaysOkSafe alwaysProtoError { connected := true }).2 = false :=
  protocol_error_single_attempt 3 100 alwaysOkSafe alwaysProtoError
    { connected := true } protoErrorResponse (by omega) rfl (by decide) rfl

/-! ## C7: retry bound of the safety source -/

/-- Claim C7 counterexample: the retry bound itself holds
(`max_retries = 3` gives exactly 3 attempts and 2 inter-attempt sleeps of
the configured 100 ms), but the claim's concluding "and the tick is
skipped" fails: issued from a connected device, the very same
always-failing query does not skip the tick — the surfaced failure reads
as an unsafe value and the tick proceeds, issuing action commands (the
abort) rather than skipping. -/
theorem retry_bound_tick_not_skipped_counterexample :
    (retry_request 3 100 alwaysTimeout).attempts = 3
    ∧ (retry_request 3 100 alwaysTimeout).sleepsMs = [100, 100]
    ∧ (check_weather_and_update_ekos
        { maxRetries := 3, retryDelay := 100, connectReq := alwaysTimeout, queryReq := alwaysTimeout }
        { ekosRunning := true, startEkosOk := true, schedStatus := some 1,
          startSchedulerOk := true, abortSchedulerOk := true, stopEkosOk := true }
        false { running := true, last_weather_safe := none } { connected := true }).2.2
      = [TickCall.isSafeQuery, TickCall.isEkosRunning, TickCall.getSchedulerStatus,
          TickCall.abortScheduler]
    ∧ List.filter TickCall.isActionCommand
        [TickCall.isSafeQuery, TickCall.isEkosRunning, TickCall.getSchedulerStatus,
          TickCall.abortScheduler] ≠ [] := by
  refine ⟨by decide, by decide, by decide, by decide⟩

/-- Amended C7: a safety query against an endpoint that always fails at
transport level is attempted exactly `max_retries` times with
`max_retries - 1` inter-attempt sleeps of the configured `retry_delay`,
and the failure then surfaces as the raised last error.  The surfaced
failure skips the tick only on the reconnect path: a tick that finds the
device disconnected performs just the failed connect, issuing no
control-plane call and leaving all state unchanged; from a connected
device the exhausted retries do not skip the tick — `is_safe` reports the
failure as `False` and the tick proceeds with the unsafe handling. -/
theorem safety_retry_bound (maxRetries retryDelay : Nat)
    (request : Nat → Except TransportError AlpacaResponse) (e : Nat → TransportError)
    (h1 : 1 ≤ maxRetries) (herr : ∀ a, request a = Except.error (e a))
    (queryReq : Nat → Except TransportError AlpacaResponse)
    (eenv : EkosEnv) (b : Bool) (l : Option Bool) :
    retry_request maxRetries retryDelay request
      = { attempts := maxRetries,
          sleepsMs := List.replicate (maxRetries - 1) retryDelay,
          outcome := Except.error (RetryError.last (e maxRetries)) }
    ∧ check_weather_and_update_ekos
        { maxRetries := maxRetries, retryDelay := retryDelay,
          connectReq := request, queryReq := queryReq }
        eenv b { running := true, last_weather_safe := l } { connected := false }
      = ({ running := true, last_weather_safe := l }, { connected := false },
          [TickCall.weatherConnect])
    ∧ ∀ (connectReq2 : Nat → Except TransportError AlpacaResponse) (wst2 : WeatherState),
        wst2.connected = true →
        (weather_is_safe maxRetries retryDelay connectReq2 request wst2).2 = false := by
  have hfail := retry_request_all_fail request e maxRetries retryDelay h1 herr
  have hwc : weather_connect maxRetries retryDelay request { connected := false }
      = ({ connected := false }, false) := by
    unfold weather_connect
    rw [hfail]
  refine ⟨hfail, ?_, ?_⟩
  · simp [check_weather_and_update_ekos, hwc]
  · intro connectReq2 wst2 hc2
    have hq : (retry_request maxRetries retryDelay request).outcome
        = Except.error (RetryError.last (e maxRetries)) := by rw [hfail]
    rw [weather_is_safe_error maxRetries retryDelay connectReq2 request wst2 _ hc2 hq]

/-- Witness for `safety_retry_bound` at `max_retries = 3`,
`retry_delay = 100` against the constant-timeout endpoint: the retry
bound, the skipped tick on the reconnect path, and the non-skipping
`False` reading on the connected path. -/
theorem safety_retry_bound_witness :
    retry_request 3 100 alwaysTimeout
      = { attempts := 3, sleepsMs := [100, 100],
          outcome := Except.error (RetryError.last "timeout") }
    ∧ check_weather_and_update_ekos
        { maxRetries := 3, retryDelay := 100,
          connectReq := alwaysTimeout, queryReq := alwaysTimeout }
        { ekosRunning := true, startEkosOk := true, schedStatus := some 1,
          startSchedulerOk := true, abortSchedulerOk := true, stopEkosOk := true }
        false { running := true, last_weather_safe := none } { connected := false }
      = ({ running := true, last_weather_safe := none }, { connected := false },
          [TickCall.weatherConnect])
    ∧ (weather_is_safe 3 100 alwaysOkSafe alwaysTimeout { connected := true }).2 = false := by
  have h := safety_retry_bound 3 100 alwaysTimeout (fun _ => "timeout") (by omega)
    (fun _ => rfl) alwaysTimeout
    { ekosRunning := true, startEkosOk := true, schedStatus := some 1,
      startSchedulerOk := true, abortSchedulerOk := true, stopEkosOk := true }
    false none
  exact ⟨h.1, h.2.1, h.2.2 alwaysOkSafe { connected := true } rfl⟩

/-! ## C9: a missing `Value` field reads as unsafe -/

/-- Claim C9: a well-formed, successful response (`ErrorNumber == 0`)
whose `Value` field is absent makes `is_safe` return `False` — the
conservative default of `response.get("Value", False)`. -/
theorem missing_value_reports_unsafe (maxRetries retryDelay : Nat)
    (connectReq queryReq : Nat → Except TransportError AlpacaResponse)
    (st : WeatherState) (resp : AlpacaResponse)
    (hconn : st.connected = true) (h1 : 1 ≤ maxRetries)
    (hreq : queryReq 1 = Except.ok resp)
    (hnum : resp.errorNumber = 0) (hval : resp.value = none) :
    weather_is_safe maxRetries retryDelay connectReq queryReq st = (st, false) := by
  have h := retry_request_first_ok maxRetries retryDelay queryReq resp h1 hreq
  have hq : (retry_request maxRetries retryDelay queryReq).outcome = Except.ok resp := by
    rw [h]
  rw [weather_is_safe_ok maxRetries retryDelay connectReq queryReq st resp hconn hq hnum,
    hval]
  rfl

/-- Witness for `missing_value_reports_unsafe` on a concrete success
response without a `Value` field. -/
theorem missing_value_reports_unsafe_witness :
    weather_is_safe 3 100 alwaysOkSafe
      (fun _ => Except.ok { errorNumber := 0, errorMessage := "", value := none })
      { connected := true }
      = ({ connected := true }, false) :=
  missing_value_reports_unsafe 3 100 alwaysOkSafe
    (fun _ => Except.ok { errorNumber := 0, errorMessage := "", value := none })
    { connected := true } { errorNumber := 0, errorMessage := "", value := none }
    rfl (by omega) rfl rfl rfl

/-! ## C4: idempotence of the scheduler commands -/

/-- Claim C4: on a connected session whose scheduler status reads 1
(Running), `start_scheduler` returns success without sending any wire
command; symmetrically, on a connected session whose status is `None` or
differs from 1, `abort_scheduler` returns success without sending any
wire command. -/
theorem scheduler_commands_idempotent (env env2 : SchedulerEnv)
    (hconn : env.isConn = true) (hrun : env.schedStatus = some 1)
    (hconn2 : env2.isConn = true) (hidle : env2.schedStatus ≠ some 1) :
    start_scheduler env = (true, []) ∧ abort_scheduler env2 = (true, []) := by
  constructor
  · simp [start_scheduler, hconn, hrun]
  · simp [abort_scheduler, hconn2, hidle]

/-- Witness for `scheduler_commands_idempotent` on concrete environments:
status Running for `start`, status `None` for `abort`. -/
theorem scheduler_commands_idempotent_witness :
    start_scheduler
      { isConn := true, connectOk := true, schedStatus := some 1,
        statusAfter := fun _ => some 1 } = (true, [])
    ∧ abort_scheduler
      { isConn := true, connectOk := true, schedStatus := none,
        statusAfter := fun _ => some 0 } = (true, []) :=
  scheduler_commands_idempotent
    { isConn := true, connectOk := true, schedStatus := some 1,
      statusAfter := fun _ => some 1 }
    { isConn := true, connectOk := true, schedStatus := none,
      statusAfter := fun _ => some 0 }
    rfl rfl rfl (by decide)

/-! ## C5: `stop` and `abort` are wire-level identical -/

/-- Claim C5: `stop_scheduler` and `abort_scheduler` produce the same
result and the same wire calls on every session/status precondition — the
source implements `stop_scheduler` as a delegation to `abort_scheduler`. -/
theorem stop_equals_abort : ∀ env : SchedulerEnv, stop_scheduler env = abort_scheduler env :=
  fun _ => rfl

/-! ## C8: capability resolution is deterministic -/

/-- Claim C8: `call_method` resolves an operation to a strategy purely as
a function of which strategies the remote object supports, committing to
exactly the highest-priority supported one in the fixed order direct
call, `call_`-wrapper, property-get — hence two resolutions against the
same supported set (e.g. over repeated connects) always pick the same
strategy. -/
theorem capability_resolution_deterministic :
    ∀ (s : MethodSupport) (str : Strategy),
      call_method_resolve s = some str ↔
        supportsStrategy s str = true ∧
        ∀ str2 : Strategy, Strategy.priority str2 < Strategy.priority str →
          supportsStrategy s str2 = false := by
  decide

/-! ## C10: vacuous success when disabled or empty -/

/-- Claim C10: when the HTTP client is disabled or the relevant action
list is empty, `execute_action_sequence`, `before_ekos_start` and
`after_ekos_stop` each return success without making any HTTP call and
without sleeping between steps. -/
theorem disabled_actions_vacuous_success (cfg : HttpConfig)
    (respond : Nat → Nat → Bool) (actions : List HttpAction) :
    ((cfg.enabled = false ∨ actions = []) →
      execute_action_sequence cfg actions respond
        = { success := true, callsPerStep := [], delays := [] })
    ∧ ((cfg.enabled = false ∨ cfg.before_start = []) →
      before_ekos_start cfg respond
        = { success := true, callsPerStep := [], delays := [] })
    ∧ ((cfg.enabled = false ∨ cfg.after_stop = []) →
      after_ekos_stop cfg respond
        = { success := true, callsPerStep := [], delays := [] }) := by
  refine ⟨?_, ?_, ?_⟩ <;> rintro (h | h) <;>
    simp [execute_action_sequence, before_ekos_start, after_ekos_stop, h]

/-- Witness for `disabled_actions_vacuous_success`: the disabled
two-step configuration succeeds vacuously on all three entry points. -/
theorem disabled_actions_vacuous_success_witness :
    execute_action_sequence cfgDisabled [stepA] respondAllOk
      = { success := true, callsPerStep := [], delays := [] }
    ∧ before_ekos_start cfgDisabled respondAllOk
      = { success := true, callsPerStep := [], delays := [] }
    ∧ after_ekos_stop cfgDisabled respondAllOk
      = { success := true, callsPerStep := [], delays := [] } :=
  ⟨(disabled_actions_vacuous_success cfgDisabled respondAllOk [stepA]).1 (Or.inl rfl),
   (disabled_actions_vacuous_success cfgDisabled respondAllOk [stepA]).2.1 (Or.inl rfl),
   (disabled_actions_vacuous_success cfgDisabled respondAllOk [stepA]).2.2 (Or.inl rfl)⟩

/-! ## C6: fail-fast sequence execution -/

/-- When every HTTP call of a step fails, the attempt loop makes exactly
`fuel` further calls before reporting failure. -/
theorem http_attempt_loop_all_fail (respond : Nat → Bool) (m : Nat)
    (hfail : ∀ j, respond j = false) :
    ∀ fuel attempt, 1 ≤ fuel → attempt + fuel = m + 1 →
      http_attempt_loop respond m attempt fuel = (fuel, false) := by
  intro fuel
  induction fuel with
  | zero => intro attempt h1 _; omega
  | succ f ih =>
    intro attempt _ hsum
    rcases Nat.eq_zero_or_pos f with hf | hf
    · subst hf
      have ha : attempt = m := by omega
      subst ha
      simp [http_attempt_loop, hfail]
    · have hlt : attempt < m := by omega
      have hrec := ih (attempt + 1) (by omega) (by omega)
      simp [http_attempt_loop, hfail, hlt, hrec]

/-- A step whose every call fails makes `max_retries + 1` HTTP calls and
reports failure. -/
theorem execute_http_request_all_fail (cfg : HttpConfig) (a : HttpAction)
    (respond : Nat → Bool) (hen : cfg.enabled = true)
    (hurl : a.url.isSome = true) (hget : a.method = "GET")
    (hfail : ∀ j, respond j = false) :
    execute_http_request cfg a respond = (cfg.max_retries + 1, false) := by
  obtain ⟨u, hu⟩ := Option.isSome_iff_exists.mp hurl
  have hloop := http_attempt_loop_all_fail respond cfg.max_retries hfail
    (cfg.max_retries + 1) 0 (by omega) (by omega)
  simp [execute_http_request, hen, hu, hget, hloop]

/-- A step whose first call succeeds makes exactly one HTTP call. -/
theorem execute_http_request_first_ok (cfg : HttpConfig) (a : HttpAction)
    (respond : Nat → Bool) (hen : cfg.enabled = true)
    (hurl : a.url.isSome = true) (hget : a.method = "GET")
    (hok : respond 0 = true) :
    execute_http_request cfg a respond = (1, true) := by
  obtain ⟨u, hu⟩ := Option.isSome_iff_exists.mp hurl
  simp [execute_http_request, hen, hu, hget, http_attempt_loop, hok]

/-- The sequential loop on `good ++ bad :: rest`, where every `good` step
succeeds on its first call and every call of `bad` fails: the loop runs
the `good` steps in order (one call each, with their inter-step delays),
exhausts `bad`'s retries, reports failure, and never reaches `rest`. -/
theorem seq_loop_fail_fast (cfg : HttpConfig) (respond : Nat → Nat → Bool)
    (total : Nat) (hen : cfg.enabled = true) :
    ∀ (good : List HttpAction) (i : Nat) (bad : HttpAction) (rest : List HttpAction),
      (∀ n, n < good.length → respond (i + n) 0 = true) →
      (∀ a ∈ good, a.url.isSome = true ∧ a.method = "GET") →
      (∀ j, respond (i + good.length) j = false) →
      bad.url.isSome = true → bad.method = "GET" →
      i + good.length < total →
      seq_loop cfg respond total i (good ++ bad :: rest)
        = { success := false,
            callsPerStep := List.replicate good.length 1 ++ [cfg.max_retries + 1],
            delays := good.map (fun a => a.delay_after.getD cfg.delay_after_call) } := by
  intro good
  induction good with
  | nil =>
    intro i bad rest _ _ hfail hbu hbg _
    have hbad := execute_http_request_all_fail cfg bad (respond i) hen hbu hbg
      (by simpa using hfail)
    simp [seq_loop, hbad]
  | cons a g ih =>
    intro i bad rest hok hform hfail hbu hbg htot
    have ha := hform a (List.mem_cons_self a g)
    have hstep := execute_http_request_first_ok cfg a (respond i) hen ha.1 ha.2
      (by simpa using hok 0 (by simp))
    have htail := ih (i + 1) bad rest
      (by
        intro n hn
        have h := hok (n + 1) (by simpa using Nat.succ_lt_succ hn)
        rwa [show i + (n + 1) = i + 1 + n from by omega] at h)
      (fun a2 ha2 => hform a2 (List.mem_cons_of_mem _ ha2))
      (by
        intro j
        have h := hfail j
        rwa [show i + (a :: g).length = i + 1 + g.length from by simp; omega] at h)
      hbu hbg (by simp at htot ⊢; omega)
    have hdel : i < total - 1 := by simp at htot; omega
    simp [seq_loop, hstep, htail, hdel, List.replicate_succ]

/-- Claim C6: for a sequence of `good ++ bad :: rest` enabled GET steps
where every `good` step succeeds on its first call and `bad` fails every
call, `execute_action_sequence` reports failure, runs the steps strictly
in order — each `good` step's HTTP call made exactly once, never repeated
or rolled back — exhausts `bad`'s `max_retries + 1` calls, and never
executes a step of `rest`. -/
theorem action_sequence_fail_fast (cfg : HttpConfig) (respond : Nat → Nat → Bool)
    (good : List HttpAction) (bad : HttpAction) (rest : List HttpAction)
    (hen : cfg.enabled = true)
    (hok : ∀ n, n < good.length → respond n 0 = true)
    (hform : ∀ a ∈ good, a.url.isSome = true ∧ a.method = "GET")
    (hfail : ∀ j, respond good.length j = false)
    (hbu : bad.url.isSome = true) (hbg : bad.method = "GET") :
    execute_action_sequence cfg (good ++ bad :: rest) respond
      = { success := false,
          callsPerStep := List.replicate good.length 1 ++ [cfg.max_retries + 1],
          delays := good.map (fun a => a.delay_after.getD cfg.delay_after_call) } := by
  have hne : (good ++ bad :: rest).isEmpty = false := by
    cases good <;> simp
  have hloop := seq_loop_fail_fast cfg respond (good ++ bad :: rest).length hen
    good 0 bad rest (by simpa using hok) hform (by simpa using hfail) hbu hbg
    (by simp)
  simpa [execute_action_sequence, hen, hne] using hloop

/-- Witness for `action_sequence_fail_fast`, the scenario of the claim:
two steps, step 1 succeeds at once, step 2 exhausts its retries
(`max_retries = 2`, hence 3 calls); the sequence reports failure and step
1 was called exactly once. -/
theorem action_sequence_fail_fast_witness :
    execute_action_sequence cfgTwoSteps [stepA, stepB] onlyFirstStepOk
      = { success := false, callsPerStep := [1, 3], delays := [5] } := by
  have h := action_sequence_fail_fast cfgTwoSteps onlyFirstStepOk [stepA] stepB []
    rfl (by decide) (by decide) (fun _ => rfl) rfl rfl
  simpa [cfgTwoSteps, stepA] using h

/-! ## C1: the debounce invariant -/

/-- `startScheduler` appears in the favourable branch exactly when EKOS
runs (or could be started) and the scheduler status does not read 1. -/
theorem startScheduler_mem_safeBranch (e : EkosEnv) :
    TickCall.startScheduler ∈ tickSafeBranch e
      ↔ (e.ekosRunning = true ∨ e.startEkosOk = true) ∧ e.schedStatus ≠ some 1 := by
  cases he : e.ekosRunning <;> cases hs : e.startEkosOk <;>
    by_cases hst : e.schedStatus = some 1 <;>
      simp [tickSafeBranch, tickSafeStatusCalls, he, hs, hst]

/-- The favourable branch never aborts the scheduler. -/
theorem abortScheduler_not_mem_safeBranch (e : EkosEnv) :
    TickCall.abortScheduler ∉ tickSafeBranch e := by
  cases he : e.ekosRunning <;> cases hs : e.startEkosOk <;>
    by_cases hst : e.schedStatus = some 1 <;>
      simp [tickSafeBranch, tickSafeStatusCalls, he, hs, hst]

/-- `abortScheduler` appears in the unfavourable branch exactly when EKOS
runs and the scheduler status reads 1. -/
theorem abortScheduler_mem_unsafeBranch (b : Bool) (e : EkosEnv) :
    TickCall.abortScheduler ∈ tickUnsafeBranch b e
      ↔ e.ekosRunning = true ∧ e.schedStatus = some 1 := by
  cases he : e.ekosRunning <;> cases hb : b <;>
    by_cases hst : e.schedStatus = some 1 <;>
      simp [tickUnsafeBranch, he, hb, hst]

/-- The unfavourable branch never starts the scheduler. -/
theorem startScheduler_not_mem_unsafeBranch (b : Bool) (e : EkosEnv) :
    TickCall.startScheduler ∉ tickUnsafeBranch b e := by
  cases he : e.ekosRunning <;> cases hb : b <;>
    by_cases hst : e.schedStatus = some 1 <;>
      simp [tickUnsafeBranch, he, hb, hst]

/-- Claim C1 counterexample: a first evaluation (the monitor's initial
state, `last_weather_safe = None`, i.e. `lastAppliedSafety` unset) that
successfully obtains a safe reading while the scheduler status already
reads 1 issues no start/abort command and runs no action sequence — so
"the first evaluation always acts" is false of the code; the tick's
behaviour is gated by the scheduler status, not by `lastAppliedSafety`. -/
theorem first_evaluation_acts_counterexample :
    weather_is_safe 1 0 alwaysOkSafe alwaysOkSafe { connected := true }
      = ({ connected := true }, true)
    ∧ check_weather_and_update_ekos
        { maxRetries := 1, retryDelay := 0, connectReq := alwaysOkSafe, queryReq := alwaysOkSafe }
        { ekosRunning := true, startEkosOk := true, schedStatus := some 1,
          startSchedulerOk := true, abortSchedulerOk := true, stopEkosOk := true }
        false { running := true, last_weather_safe := none } { connected := true }
      = ({ running := true, last_weather_safe := none }, { connected := true },
          [TickCall.isSafeQuery, TickCall.isEkosRunning, TickCall.getSchedulerStatus])
    ∧ List.filter TickCall.isActionCommand
        [TickCall.isSafeQuery, TickCall.isEkosRunning, TickCall.getSchedulerStatus] = [] := by
  refine ⟨by decide, by decide, by decide⟩

/-- Amended C1: the tick neither reads nor writes `last_weather_safe`
(the monitor state passes through unchanged and the tick's behaviour is
independent of it); redundant commands are avoided through the scheduler
status instead: on a successfully obtained reading, a scheduler start
command is issued iff the reading is safe, EKOS runs or could be started,
and the status does not read 1 (Running); an abort command is issued iff
the reading is unsafe, EKOS runs, and the status reads 1. -/
theorem tick_gating_by_scheduler_status (w : WeatherEnv) (e : EkosEnv) (b : Bool)
    (l : Option Bool) (wst : WeatherState) (resp : AlpacaResponse)
    (hconn : wst.connected = true)
    (hq : (retry_request w.maxRetries w.retryDelay w.queryReq).outcome = Except.ok resp)
    (hnum : resp.errorNumber = 0) :
    (check_weather_and_update_ekos w e b
        { running := true, last_weather_safe := l } wst).1
      = { running := true, last_weather_safe := l }
    ∧ (∀ l' : Option Bool,
        (check_weather_and_update_ekos w e b
            { running := true, last_weather_safe := l } wst).2
          = (check_weather_and_update_ekos w e b
              { running := true, last_weather_safe := l' } wst).2)
    ∧ (TickCall.startScheduler ∈ (check_weather_and_update_ekos w e b
          { running := true, last_weather_safe := l } wst).2.2
        ↔ resp.value.getD false = true
          ∧ (e.ekosRunning = true ∨ e.startEkosOk = true) ∧ e.schedStatus ≠ some 1)
    ∧ (TickCall.abortScheduler ∈ (check_weather_and_update_ekos w e b
          { running := true, last_weather_safe := l } wst).2.2
        ↔ resp.value.getD false = false
          ∧ e.ekosRunning = true ∧ e.schedStatus = some 1) := by
  have hsafe := weather_is_safe_ok w.maxRetries w.retryDelay w.connectReq w.queryReq
    wst resp hconn hq hnum
  refine ⟨?_, ?_, ?_, ?_⟩
  · simp [check_weather_and_update_ekos, hconn, tickAfterConnect, hsafe]
  · intro l'
    simp [check_weather_and_update_ekos, hconn, tickAfterConnect, hsafe]
  · cases hv : resp.value.getD false <;>
      simp [check_weather_and_update_ekos, hconn, tickAfterConnect, hsafe, hv,
        startScheduler_mem_safeBranch, startScheduler_not_mem_unsafeBranch]
  · cases hv : resp.value.getD false <;>
      simp [check_weather_and_update_ekos, hconn, tickAfterConnect, hsafe, hv,
        abortScheduler_mem_unsafeBranch, abortScheduler_not_mem_safeBranch]

/-- Witness for `tick_gating_by_scheduler_status`: with a safe reading,
EKOS running and status 0, the start command is issued and the monitor
state (including `last_weather_safe`) is unchanged. -/
theorem tick_gating_by_scheduler_status_witness :
    TickCall.startScheduler ∈ (check_weather_and_update_ekos
        { maxRetries := 1, retryDelay := 0, connectReq := alwaysOkSafe, queryReq := alwaysOkSafe }
        { ekosRunning := true, startEkosOk := true, schedStatus := some 0,
          startSchedulerOk := true, abortSchedulerOk := true, stopEkosOk := true }
        false { running := true, last_weather_safe := none } { connected := true }).2.2
    ∧ (check_weather_and_update_ekos
        { maxRetries := 1, retryDelay := 0, connectReq := alwaysOkSafe, queryReq := alwaysOkSafe }
        { ekosRunning := true, startEkosOk := true, schedStatus := some 0,
          startSchedulerOk := true, abortSchedulerOk := true, stopEkosOk := true }
        false { running := true, last_weather_safe := none } { connected := true }).1
      = { running := true, last_weather_safe := none } := by
  have h := tick_gating_by_scheduler_status
    { maxRetries := 1, retryDelay := 0, connectReq := alwaysOkSafe, queryReq := alwaysOkSafe }
    { ekosRunning := true, startEkosOk := true, schedStatus := some 0,
      startSchedulerOk := true, abortSchedulerOk := true, stopEkosOk := true }
    false none { connected := true } okSafeResponse rfl rfl rfl
  exact ⟨h.2.2.1.mpr ⟨rfl, Or.inl rfl, by decide⟩, h.1⟩

/-! ## C2: a failed reading does not skip the tick -/

/-- Claim C2 counterexample: with the device connected and the safety
endpoint failing at transport level on every attempt (retries exhausted,
the retrieval surfaces an error), the tick is not skipped: `is_safe`
returns `False` and the tick proceeds down the unfavourable path, issuing
the control-plane abort command. -/
theorem failed_reading_issues_commands_counterexample :
    (retry_request 3 100 alwaysTimeout).outcome
        = Except.error (RetryError.last "timeout")
    ∧ (weather_is_safe 3 100 alwaysTimeout alwaysTimeout { connected := true }).2 = false
    ∧ TickCall.abortScheduler ∈ (check_weather_and_update_ekos
        { maxRetries := 3, retryDelay := 100, connectReq := alwaysTimeout, queryReq := alwaysTimeout }
        { ekosRunning := true, startEkosOk := true, schedStatus := some 1,
          startSchedulerOk := true, abortSchedulerOk := true, stopEkosOk := true }
        false { running := true, last_weather_safe := none } { connected := true }).2.2 := by
  refine ⟨by decide, by decide, by decide⟩

/-- Amended C2: only a tick that finds the weather device disconnected
and fails to reconnect is skipped entirely — no control-plane command, no
action sequence, no mutation of the monitor or weather state; when the
device is connected, a failed retrieval (transport error or exhausted
retries) makes `is_safe` return `False` and the tick proceeds as an
unsafe reading.  Failures are logged, never fatal (`is_safe` returns
instead of raising). -/
theorem tick_skip_only_on_connect_failure (w : WeatherEnv) (e : EkosEnv) (b : Bool)
    (l : Option Bool) (wst : WeatherState)
    (hconn : wst.connected = false)
    (hfail : (weather_connect w.maxRetries w.retryDelay w.connectReq wst).2 = false) :
    check_weather_and_update_ekos w e b { running := true, last_weather_safe := l } wst
      = ({ running := true, last_weather_safe := l }, wst, [TickCall.weatherConnect])
    ∧ ∀ (wst2 : WeatherState) (err : RetryError TransportError),
        wst2.connected = true →
        (retry_request w.maxRetries w.retryDelay w.queryReq).outcome = Except.error err →
        (weather_is_safe w.maxRetries w.retryDelay w.connectReq w.queryReq wst2).2 = false := by
  constructor
  · have hst := weather_connect_fail_state w.maxRetries w.retryDelay w.connectReq wst hfail
    rcases hwc : weather_connect w.maxRetries w.retryDelay w.connectReq wst with ⟨wst1, ok⟩
    have hok : ok = false := by rw [hwc] at hfail; exact hfail
    subst hok
    have hw1 : wst1 = wst := by rw [hwc] at hst; exact hst
    subst hw1
    simp [check_weather_and_update_ekos, hconn, hwc]
  · intro wst2 err hc2 herr
    rw [weather_is_safe_error w.maxRetries w.retryDelay w.connectReq w.queryReq wst2 err hc2 herr]

/-- Witness for `tick_skip_only_on_connect_failure` against the
constant-timeout endpoint. -/
theorem tick_skip_only_on_connect_failure_witness :
    check_weather_and_update_ekos
        { maxRetries := 3, retryDelay := 100, connectReq := alwaysTimeout, queryReq := alwaysTimeout }
        { ekosRunning := true, startEkosOk := true, schedStatus := some 1,
          startSchedulerOk := true, abortSchedulerOk := true, stopEkosOk := true }
        false { running := true, last_weather_safe := none } { connected := false }
      = ({ running := true, last_weather_safe := none }, { connected := false },
          [TickCall.weatherConnect])
    ∧ (weather_is_safe 3 100 alwaysTimeout alwaysTimeout { connected := true }).2 = false := by
  have h := tick_skip_only_on_connect_failure
    { maxRetries := 3, retryDelay := 100, connectReq := alwaysTimeout, queryReq := alwaysTimeout }
    { ekosRunning := true, startEkosOk := true, schedStatus := some 1,
      startSchedulerOk := true, abortSchedulerOk := true, stopEkosOk := true }
    false none { connected := false } rfl (by decide)
  exact ⟨h.1, h.2 { connected := true } (RetryError.last "timeout") rfl (by decide)⟩
